import Mathlib

/-!
Verification of the AECyberTV sales bot (`aecybertv_bot_full_with_features.py`)
against its natural-language specification.

The embedding below translates the parts of the source that the claims
are about:

* calendar arithmetic: all timestamps in the bot are produced by
  `datetime.now(ZoneInfo("Asia/Dubai"))`; Dubai has a fixed UTC offset and
  no DST, so an instant is modelled as an `Int` of minutes on the Dubai
  local timeline.  `strftime("%Y-%m")` is modelled by `yearMonth`, using
  the standard civil-from-days conversion; two `%Y-%m` strings are equal
  iff the (year, month) pairs are equal.
* `normalize_phone` / `PHONE_RE` (lines 256-262 of the source);
* the JSONL record stores: a store is a `List (Option α)` of lines, where
  `some r` is a line that parses as record `r` and `none` is a line that
  `json.loads` rejects.  `save_jsonl` (lines 210-222) counts *lines* for
  the next id; `iter_jsonl` (lines 224-234) silently skips bad lines.
* `save_customer` (lines 240-254): appends a dict with a fixed key set to
  `customers.jsonl`; it does not go through `save_jsonl`.
* the trial flow handlers: the trial branch of `on_contact` (monthly
  eligibility check, lines 706-723), the trial-submit branch of `any_text`
  (lines 599-633), the admin `trial_send` / `trial_reject` buttons in
  `on_button` (lines 984-1009) and `admin_force_reply` (lines 1031-1058).
  SHA-256 of `phone + salt` (`phone_hash`, lines 274-276) is treated as an
  uninterpreted function parameter `hash : String → String`.
* outbound chat messages are modelled by the `Msg` tag of the message the
  handler sends to the requesting chat, and by `CredsDelivery` for the
  credential message `admin_force_reply` sends to the stored chat id.
* rewrites of `trials.jsonl` open the file in mode `"w"` and write the
  rows one line at a time; `rewrite_in_place` models this including an
  optional injected failure point `some k` (the write stops after `k`
  lines, the truncated prior content is already gone).
-/

/-! ## Calendar (Asia/Dubai local minutes) -/

/-- Day number of a civil date (proleptic Gregorian), days since 1970-01-01.
Standard civil-calendar conversion; models the date part of
`datetime(y, m, d)` in the fixed-offset Dubai timeline. -/
def daysFromCivil (y0 m d : Int) : Int :=
  let y := if m ≤ 2 then y0 - 1 else y0
  let era := y.fdiv 400
  let yoe := y - era * 400
  let mp := if m > 2 then m - 3 else m + 9
  let doy := (153 * mp + 2).fdiv 5 + d - 1
  let doe := yoe * 365 + yoe.fdiv 4 - yoe.fdiv 100 + doy
  era * 146097 + doe - 719468

/-- Inverse of `daysFromCivil`: (year, month, day) of a day number. -/
def civilFromDays (z0 : Int) : Int × Int × Int :=
  let z := z0 + 719468
  let era := z.fdiv 146097
  let doe := z - era * 146097
  let yoe := (doe - doe.fdiv 1460 + doe.fdiv 36524 - doe.fdiv 146096).fdiv 365
  let y := yoe + era * 400
  let doy := doe - (365 * yoe + yoe.fdiv 4 - yoe.fdiv 100)
  let mp := (5 * doy + 2).fdiv 153
  let d := doy - (153 * mp + 2).fdiv 5 + 1
  let m := if mp < 10 then mp + 3 else mp - 9
  (if m ≤ 2 then y + 1 else y, m, d)

/-- A Dubai-local instant, in minutes. -/
def minutesOf (y m d hh mm : Int) : Int :=
  daysFromCivil y m d * 1440 + hh * 60 + mm

/-- `now.strftime("%Y-%m")` in the Dubai timeline, as a (year, month) pair
(the zero-padded `%Y-%m` string is injective on valid dates, so string
equality in the source is pair equality here). -/
def yearMonth (t : Int) : Int × Int :=
  let c := civilFromDays (t.fdiv 1440)
  (c.1, c.2.1)

/-! ## Phone normalization (`normalize_phone`, `PHONE_RE`) -/

/-- Characters kept by `re.sub(r"[^\d+]", "", s)`. -/
def keepPhoneChar (c : Char) : Bool :=
  c.isDigit || c == '+'

/-- Python `str.strip()` on the character list. -/
def trimChars (l : List Char) : List Char :=
  ((l.dropWhile Char.isWhitespace).reverse.dropWhile Char.isWhitespace).reverse

/-- `normalize_phone` (source lines 258-262): strip, turn a leading `"00"`
into `"+"`, then delete every character that is not a digit or `'+'`. -/
def normalizeChars (l0 : List Char) : List Char :=
  let l1 := trimChars l0
  let l2 := if l1.take 2 = ['0', '0'] then '+' :: l1.drop 2 else l1
  l2.filter keepPhoneChar

/-- String wrapper for `normalizeChars`. -/
def normalize_phone (s : String) : String :=
  String.mk (normalizeChars s.data)

/-- Character class `[\d\s\-()]` of `PHONE_RE` (ASCII fragment). -/
def phoneTailChar (c : Char) : Bool :=
  c.isDigit || c.isWhitespace || c == '-' || c == '(' || c == ')'

/-- After the optional `"+"`: a digit followed by at least six characters
of the tail class (`\d[\d\s\-()]{6,}`). -/
def validDigitStart : List Char → Bool
  | c :: rest => c.isDigit && decide (6 ≤ rest.length) && rest.all phoneTailChar
  | [] => false

/-- The validity predicate `PHONE_RE.match` (source line 256,
`^\+?\d[\d\s\-()]{6,}$`) as a full-string match: the source applies it to
already-stripped text, so the trailing-newline allowance of `$` is moot. -/
def PHONE_RE_match (s : String) : Bool :=
  match s.data with
  | '+' :: rest => validDigitStart rest
  | l => validDigitStart l

/-! ## Record stores (JSONL files) -/

/-- One trial row as written by the trial-submit branch of `any_text`
(source lines 604-616).  Timestamps are Dubai-local minutes;
`package_code` is `Option` because the Python dict lookup
`user_data.get("trial_pkg_code")` can yield `None`. -/
structure TrialRec where
  id : Nat
  tg_chat_id : Int
  tg_user_id : Int
  tg_username : Option String
  package_code : Option String
  phone_e164 : String
  phone_hash : String
  username_text : String
  expires_at : Int
  requested_at : Int
  year_month : Int × Int
  status : String
  granted_at : Option Int
deriving DecidableEq, Repr

/-- `save_jsonl` (source lines 210-222): the next id is the current number
of *lines* in the file plus one (`sum(1 for _ in f) + 1`), the row is
written with that id (`{"id": next_id, **row}`) and appended as one line.
Returns the new store and the assigned id. -/
def save_jsonl {α : Type} (store : List (Option α)) (mkRow : Nat → α) :
    List (Option α) × Nat :=
  let next_id := store.length + 1
  (store ++ [some (mkRow next_id)], next_id)

/-- `iter_jsonl` (source lines 224-234): parse every line, silently
dropping the lines `json.loads` rejects. -/
def iter_jsonl {α : Type} (store : List (Option α)) : List α :=
  store.filterMap id

/-- One customer row as written by `save_customer` (source lines 240-254).
Note there is no id field: `save_customer` does not call `save_jsonl`. -/
structure CustomerRec where
  chat_id : Int
  user_id : Int
  username : Option String
  name : String
  package : Option String
  phone : Option String
  ts : Int
deriving DecidableEq, Repr

/-- `save_customer`: plain append of the record line to `customers.jsonl`. -/
def save_customer (store : List CustomerRec) (rec : CustomerRec) :
    List CustomerRec :=
  store ++ [rec]

/-- The keys of the dict literal `save_customer` serializes, in source
order (source lines 241-249). -/
def customerRecKeys : List String :=
  ["chat_id", "user_id", "username", "name", "package", "phone", "ts"]

/-- Iterated `save_jsonl`, recording the ids it assigns, for the
sequence-id invariant. -/
def append_ids {α : Type} (store : List (Option α)) (mks : List (Nat → α)) :
    List (Option α) × List Nat :=
  match mks with
  | [] => (store, [])
  | mk :: rest =>
      let r1 := save_jsonl store mk
      let r2 := append_ids r1.1 rest
      (r2.1, r1.2 :: r2.2)

/-! ## Trial flow state and handlers -/

/-- The `trial_stage` key of `context.user_data`: `idle` models the key
being absent (popped). -/
inductive TrialStage
  | idle
  | awaitPhone
  | awaitUsername
deriving DecidableEq, Repr

/-- The trial-related keys of one user's `context.user_data`
(`trial_stage`, `trial_pkg_code`, `trial_phone_e164`) plus the admin-side
`awaiting_trial_creds_for`; `none` models an absent key. -/
structure UserTrialData where
  stage : TrialStage
  pkgCode : Option String
  phoneE164 : Option String
  awaitingCredsFor : Option Nat
deriving DecidableEq, Repr

/-- Tag of the message a trial handler sends to the requesting chat. -/
inductive Msg
  | trialDenied
  | askTrialUsername
  | trialAck
deriving DecidableEq, Repr

/-- Result of one trial-flow step: new store, new user data, message tag. -/
structure TrialStep where
  store : List (Option TrialRec)
  ud : UserTrialData
  reply : Option Msg
deriving DecidableEq, Repr

/-- `TRIAL_HOURS.get(code, 24)` (source line 107 and the `get` calls):
hours per package code, default 24. -/
def TRIAL_HOURS_get (code : Option String) : Int :=
  match code with
  | some "kids" => 8
  | some "casual" => 24
  | some "executive" => 10
  | some "premium" => 24
  | _ => 24

/-- The monthly-eligibility scan inside the trial branch of `on_contact`
(source lines 709-718): some parsed row has this phone hash and this
`%Y-%m` month. -/
def trial_used_this_month (store : List (Option TrialRec)) (ph : String)
    (ym : Int × Int) : Bool :=
  (iter_jsonl store).any (fun r => r.phone_hash == ph && r.year_month == ym)

/-- The `trial_pkg|code` button branch of `on_button` (source lines
970-981): set `trial_stage = "await_phone"` and `trial_pkg_code = code`. -/
def on_button_trial_pkg (code : String) (ud : UserTrialData) : UserTrialData :=
  { ud with stage := TrialStage.awaitPhone, pkgCode := some code }

/-- The trial branch of `on_contact` (source lines 706-723), entered when
`trial_stage == "await_phone"`.  The shared contact's number is
normalized, hashed, and checked against the store for the current Dubai
calendar month; on a hit the stage and package keys are popped and the
denial message is sent, with no write to the store; otherwise the phone is
kept and the username prompt is sent. -/
def on_contact_trial (store : List (Option TrialRec)) (ud : UserTrialData)
    (hash : String → String) (contactPhone : String) (now : Int) : TrialStep :=
  let phone := normalize_phone contactPhone
  if ud.stage = TrialStage.awaitPhone then
    let ph := hash phone
    let ym := yearMonth now
    if trial_used_this_month store ph ym then
      { store := store,
        ud := { ud with stage := TrialStage.idle, pkgCode := none },
        reply := some Msg.trialDenied }
    else
      { store := store,
        ud := { ud with phoneE164 := some phone, stage := TrialStage.awaitUsername },
        reply := some Msg.askTrialUsername }
  else
    { store := store, ud := ud, reply := none }

/-- The trial-submit branch of `any_text` (source lines 599-633), entered
when `trial_stage == "await_username"` and `trial_phone_e164` is truthy
(a non-empty string).  Appends the trial row through `save_jsonl` with
status `"pending"`, `expires_at = now + TRIAL_HOURS.get(code, 24) hours`,
then clears the three trial keys and acknowledges. -/
def any_text_trial (store : List (Option TrialRec)) (ud : UserTrialData)
    (hash : String → String) (chatId userId : Int) (tgUsername : Option String)
    (txt : String) (now : Int) : TrialStep :=
  match ud.stage, ud.phoneE164 with
  | TrialStage.awaitUsername, some e164 =>
      if e164 = "" then { store := store, ud := ud, reply := none }
      else
        let code := ud.pkgCode
        let expires := now + TRIAL_HOURS_get code * 60
        let res := save_jsonl store (fun n =>
          { id := n,
            tg_chat_id := chatId,
            tg_user_id := userId,
            tg_username := tgUsername,
            package_code := code,
            phone_e164 := e164,
            phone_hash := hash e164,
            username_text := txt,
            expires_at := expires,
            requested_at := now,
            year_month := yearMonth now,
            status := "pending",
            granted_at := none })
        { store := res.1,
          ud := { ud with stage := TrialStage.idle, pkgCode := none,
                          phoneE164 := none },
          reply := some Msg.trialAck }
  | _, _ => { store := store, ud := ud, reply := none }

/-! ## Store rewrites and operator actions -/

/-- A rewrite of `trials.jsonl` as the source performs it (lines 1005-1007
and 1049-1051): `TRIALS_FILE.open("w")` truncates the file at once, then
the rows are written one line per row.  `failAfter = some k` injects a
failure after `k` lines were written; `none` is a completed rewrite.  The
prior content is destroyed by the truncation either way. -/
def rewrite_in_place (rows : List TrialRec) (failAfter : Option Nat)
    (_prior : List (Option TrialRec)) : List (Option TrialRec) :=
  match failAfter with
  | none => rows.map some
  | some k => (rows.take k).map some

/-- Modelled from the spec: the write-to-temp-then-swap rewrite the spec
demands (section 4.3) — a failed rewrite leaves the prior store intact,
only a completed rewrite installs the new rows.  This is the spec-side
definition for the refinement comparison; `rewrite_in_place` above is the
code-side one. -/
def rewrite_atomic_spec (rows : List TrialRec) (failAfter : Option Nat)
    (prior : List (Option TrialRec)) : List (Option TrialRec) :=
  match failAfter with
  | none => rows.map some
  | some _ => prior

/-- The per-row update of the `trial_reject|id` loop (source lines
1002-1004): flip `status` to `"rejected"` on an id match. -/
def reject_row (tid : Nat) (r : TrialRec) : TrialRec :=
  if r.id = tid then { r with status := "rejected" } else r

/-- The store effect of the `trial_reject|id` button (source lines
1000-1007): re-read via `iter_jsonl`, flip matching rows, rewrite. -/
def trial_reject (store : List (Option TrialRec)) (tid : Nat) :
    List (Option TrialRec) :=
  rewrite_in_place ((iter_jsonl store).map (reject_row tid)) none store

/-- `_is_admin` (source lines 466-470): true iff `ADMIN_CHAT_ID` is set
and equals the acting user's id. -/
def is_admin (adminChatId : Option Int) (userId : Int) : Bool :=
  match adminChatId with
  | some a => a == userId
  | none => false

/-- The `trial_reject|id` button of `on_button` (source lines 995-1009):
non-admins are refused before any file access.  The `Bool` reports
whether the rejection was performed. -/
def on_button_trial_reject (isAdm : Bool) (tid : Nat)
    (store : List (Option TrialRec)) : List (Option TrialRec) × Bool :=
  if isAdm then (trial_reject store tid, true) else (store, false)

/-- The `trial_send|id` button of `on_button` (source lines 984-993):
non-admins are refused; for the admin the pending-credentials slot
`awaiting_trial_creds_for` is set (last request wins) and a ForceReply
prompt is sent (the `Bool`). -/
def on_button_trial_send (isAdm : Bool) (tid : Nat)
    (store : List (Option TrialRec)) (ud : UserTrialData) :
    List (Option TrialRec) × UserTrialData × Bool :=
  if isAdm then (store, { ud with awaitingCredsFor := some tid }, true)
  else (store, ud, false)

/-- The per-row update of the `admin_force_reply` loop (source lines
1042-1048): on an id match set `status = "granted"` and stamp
`granted_at`. -/
def grant_row (tid : Nat) (now : Int) (r : TrialRec) : TrialRec :=
  if r.id = tid then { r with status := "granted", granted_at := some now }
  else r

/-- The credential message `admin_force_reply` sends to the stored
`tg_chat_id`: package code, pasted credentials, and the expiry read back
from the record's `expires_at`. -/
structure CredsDelivery where
  chat : Int
  pkg : Option String
  creds : String
  expiry : Int
deriving DecidableEq, Repr

/-- `admin_force_reply` (source lines 1031-1058).  Non-admins: immediate
return, no state change.  Otherwise the pending id is popped; a falsy id
(`None` or `0`) returns after the pop.  The store is re-read, every row
matching the id is granted, the file is rewritten, and — when a matching
row was found (the loop keeps the last match) and its `tg_chat_id` is
truthy — the credentials with the record's `expires_at` go to that chat. -/
def admin_force_reply (isAdm : Bool) (store : List (Option TrialRec))
    (ud : UserTrialData) (creds : String) (now : Int) :
    List (Option TrialRec) × UserTrialData × Option CredsDelivery :=
  if isAdm then
    match ud.awaitingCredsFor with
    | none => (store, ud, none)
    | some tid =>
        let ud2 := { ud with awaitingCredsFor := none }
        if tid = 0 then (store, ud2, none)
        else
          let rows := iter_jsonl store
          let found := rows.foldl
            (fun acc r => if r.id = tid then some r else acc)
            (none : Option TrialRec)
          let store2 := rewrite_in_place (rows.map (grant_row tid now)) none store
          match found with
          | some r =>
              if r.tg_chat_id ≠ 0 then
                (store2, ud2,
                 some { chat := r.tg_chat_id, pkg := r.package_code,
                        creds := creds, expiry := r.expires_at })
              else (store2, ud2, none)
          | none => (store2, ud2, none)
  else (store, ud, none)

/-! ## Spec-side eligibility predicate (for the refinement comparison) -/

/-- Modelled from the spec: `hasRecentTrial(fingerprint, package, now,
windowDays=30)` of section 4.4 — scan the trial category, filter on
fingerprint+package, take the newest `created_at`, true iff
`now − that < 30 days`, no match false.  This is the spec-side definition
the code-side check `trial_used_this_month` is compared against. -/
def hasRecentTrial_spec (store : List (Option TrialRec)) (fp pkg : String)
    (now : Int) : Bool :=
  let ms := (iter_jsonl store).filter
    (fun r => r.phone_hash == fp && r.package_code == some pkg)
  match (ms.map (fun r => r.requested_at)).max? with
  | some ts => now - ts < 30 * 1440
  | none => false

/-! ## Concrete fixtures for counterexamples and witnesses -/

/-- A pending "kids" trial requested 2025-01-31 12:00 Dubai time. -/
def recJan31 : TrialRec :=
  { id := 1,
    tg_chat_id := 100,
    tg_user_id := 100,
    tg_username := some "alice",
    package_code := some "kids",
    phone_e164 := "+97150000000",
    phone_hash := "+97150000000",
    username_text := "alicetv",
    expires_at := minutesOf 2025 1 31 12 0 + 8 * 60,
    requested_at := minutesOf 2025 1 31 12 0,
    year_month := yearMonth (minutesOf 2025 1 31 12 0),
    status := "pending",
    granted_at := none }

/-- A pending "kids" trial requested 2025-01-25 12:00 Dubai time. -/
def recJan25 : TrialRec :=
  { id := 1,
    tg_chat_id := 200,
    tg_user_id := 200,
    tg_username := some "bob",
    package_code := some "kids",
    phone_e164 := "+97151111111",
    phone_hash := "+97151111111",
    username_text := "bobtv",
    expires_at := minutesOf 2025 1 25 12 0 + 8 * 60,
    requested_at := minutesOf 2025 1 25 12 0,
    year_month := yearMonth (minutesOf 2025 1 25 12 0),
    status := "pending",
    granted_at := none }

/-- A second pending trial, id 2, "casual", requested 2025-01-20. -/
def recJan20 : TrialRec :=
  { id := 2,
    tg_chat_id := 300,
    tg_user_id := 300,
    tg_username := none,
    package_code := some "casual",
    phone_e164 := "+97152222222",
    phone_hash := "+97152222222",
    username_text := "caroltv",
    expires_at := minutesOf 2025 1 20 9 0 + 24 * 60,
    requested_at := minutesOf 2025 1 20 9 0,
    year_month := yearMonth (minutesOf 2025 1 20 9 0),
    status := "pending",
    granted_at := none }

/-- User data sitting at the phone-collection step of a "casual" trial. -/
def udAwaitCasual : UserTrialData :=
  { stage := TrialStage.awaitPhone,
    pkgCode := some "casual",
    phoneE164 := none,
    awaitingCredsFor := none }

/-- User data sitting at the phone-collection step of a "kids" trial. -/
def udAwaitKids : UserTrialData :=
  { stage := TrialStage.awaitPhone,
    pkgCode := some "kids",
    phoneE164 := none,
    awaitingCredsFor := none }

/-- User data sitting at the username step of a "kids" trial, phone already
collected. -/
def udSubmitKids : UserTrialData :=
  { stage := TrialStage.awaitUsername,
    pkgCode := some "kids",
    phoneE164 := some "+97153333333",
    awaitingCredsFor := none }

/-- Admin-side user data with a pending credential request for trial id 1. -/
def udCreds1 : UserTrialData :=
  { stage := TrialStage.idle,
    pkgCode := none,
    phoneE164 := none,
    awaitingCredsFor := some 1 }

/-! ## Helper lemmas -/

/-- Sanity check of the calendar embedding against the spec's own test
vector: `normalize("0097150000000") == "+97150000000"`, and the civil
conversion places the fixture instants in the expected months. -/
theorem embedding_sanity :
    normalize_phone "0097150000000" = "+97150000000" ∧
    yearMonth (minutesOf 2025 1 31 12 0) = (2025, 1) ∧
    yearMonth (minutesOf 2025 2 1 12 0) = (2025, 2) ∧
    minutesOf 2025 2 1 12 0 - minutesOf 2025 1 31 12 0 = 1440 := by
  decide

/-- Characters kept by the normalization filter are never whitespace. -/
theorem keepPhoneChar_not_whitespace (c : Char) (h : keepPhoneChar c = true) :
    c.isWhitespace = false := by
  have hs : c ≠ ' ' := by rintro rfl; exact absurd h (by decide)
  have ht : c ≠ '\t' := by rintro rfl; exact absurd h (by decide)
  have hr : c ≠ '\r' := by rintro rfl; exact absurd h (by decide)
  have hn : c ≠ '\n' := by rintro rfl; exact absurd h (by decide)
  simp [Char.isWhitespace, hs, ht, hr, hn]

/-- `dropWhile` is the identity when no element satisfies the predicate. -/
theorem dropWhile_eq_self_of_forall (p : Char → Bool) (l : List Char)
    (h : ∀ c ∈ l, p c = false) : l.dropWhile p = l := by
  cases l with
  | nil => rfl
  | cons a t => simp [List.dropWhile_cons, h a (List.mem_cons_self a t)]

/-- Stripping is the identity on whitespace-free character lists. -/
theorem trimChars_eq_self (l : List Char)
    (h : ∀ c ∈ l, c.isWhitespace = false) : trimChars l = l := by
  unfold trimChars
  rw [dropWhile_eq_self_of_forall _ _ h]
  rw [dropWhile_eq_self_of_forall _ _
    (fun c hc => h c (List.mem_reverse.mp hc))]
  exact List.reverse_reverse l

/-- Normalization is idempotent on lists whose normal form does not begin
with `"00"`. -/
theorem normalizeChars_idem (l : List Char)
    (h00 : (normalizeChars l).take 2 ≠ ['0', '0']) :
    normalizeChars (normalizeChars l) = normalizeChars l := by
  have hkeep : ∀ c ∈ normalizeChars l, keepPhoneChar c = true := by
    intro c hc
    simp only [normalizeChars] at hc
    exact List.of_mem_filter hc
  have htrim : trimChars (normalizeChars l) = normalizeChars l :=
    trimChars_eq_self _
      (fun c hc => keepPhoneChar_not_whitespace c (hkeep c hc))
  conv_lhs => rw [normalizeChars]
  rw [htrim, if_neg h00]
  exact List.filter_eq_self.mpr hkeep

/-- The ids assigned by a run of `save_jsonl` appends starting from any
store are consecutive, starting at the line count plus one. -/
theorem append_ids_eq_range {α : Type} (mks : List (Nat → α)) :
    ∀ store : List (Option α),
      (append_ids store mks).2 = List.range' (store.length + 1) mks.length := by
  induction mks with
  | nil => intro store; simp [append_ids]
  | cons mk rest ih =>
      intro store
      simp only [append_ids, save_jsonl, List.length_cons]
      rw [ih]
      simp [List.range'_succ, List.length_append, Nat.add_assoc, Nat.add_comm 1]

/-! ## Claim theorems -/

/-- Claim C4, counterexample: the raw phone string `"0 0 1234567"` is
accepted by `PHONE_RE`, yet normalizing it once yields `"001234567"` and
normalizing again yields `"+1234567"` — the spaces hide the `"00"` prefix
from the first pass, so normalization is not idempotent on this valid
input. -/
theorem normalize_phone_not_idempotent_cex :
    PHONE_RE_match "0 0 1234567" = true ∧
    normalize_phone "0 0 1234567" = "001234567" ∧
    normalize_phone (normalize_phone "0 0 1234567") ≠
      normalize_phone "0 0 1234567" := by
  decide

/-- Claim C4, amended: phone normalization is idempotent on every valid
input whose normalized form does not begin with `"00"` (the
counterexample shows the `"00"` case genuinely fails). -/
theorem normalize_phone_idempotent_unless_00 (s : String)
    (hv : PHONE_RE_match s = true)
    (h00 : (normalize_phone s).data.take 2 ≠ ['0', '0']) :
    normalize_phone (normalize_phone s) = normalize_phone s := by
  unfold normalize_phone
  congr 1
  exact normalizeChars_idem s.data h00

/-- Witness for the amended C4 theorem at the spec's own example input
`"0097150000000"`. -/
theorem normalize_phone_idempotent_unless_00_witness :
    PHONE_RE_match "0097150000000" = true ∧
    normalize_phone (normalize_phone "0097150000000") =
      normalize_phone "0097150000000" :=
  ⟨by decide,
   normalize_phone_idempotent_unless_00 "0097150000000" (by decide) (by decide)⟩

/-- Claim C3, counterexample: the customer category does not go through
`save_jsonl`; `save_customer` serializes exactly the keys
`customerRecKeys`, and neither `"id"` nor `"sequence_id"` is among them,
so customer records carry no sequence id at all. -/
theorem customer_record_has_no_sequence_id :
    "id" ∉ customerRecKeys ∧ "sequence_id" ∉ customerRecKeys := by
  decide

/-- Claim C3, amended: for the categories written through `save_jsonl`
(trial, renewal, support), the id assigned by an append equals the prior
line count plus one, two sequential appends yield `id2 = id1 + 1`, and the
ids assigned along any appends-only history from an empty store are
exactly `1, 2, …, n` — 1-based, strictly increasing, hence unique.  The
customer category is the exception: `save_customer` records carry no
sequence id. -/
theorem save_jsonl_sequence_ids :
    (∀ (α : Type) (store : List (Option α)) (mk : Nat → α),
        (save_jsonl store mk).2 = store.length + 1) ∧
    (∀ (α : Type) (store : List (Option α)) (mk1 mk2 : Nat → α),
        (save_jsonl (save_jsonl store mk1).1 mk2).2 =
          (save_jsonl store mk1).2 + 1) ∧
    (∀ (α : Type) (mks : List (Nat → α)),
        (append_ids ([] : List (Option α)) mks).2 =
          List.range' 1 mks.length) ∧
    (∀ (α : Type) (mks : List (Nat → α)),
        List.Pairwise (· < ·) (append_ids ([] : List (Option α)) mks).2) := by
  refine ⟨fun α store mk => rfl, ?_, ?_, ?_⟩
  · intro α store mk1 mk2
    simp [save_jsonl]
  · intro α mks
    simpa using append_ids_eq_range mks []
  · intro α mks
    have h := append_ids_eq_range mks ([] : List (Option α))
    simp only [List.length_nil, Nat.zero_add] at h
    rw [h]
    exact List.pairwise_lt_range' 1 mks.length

/-- Claim C5, counterexample: the rewrite used for status flips opens the
store with mode `"w"` (truncate in place) and writes rows sequentially; a
failure before the first row is written leaves an empty store, not the
prior content, whereas the spec's write-to-temp-then-swap semantics would
have preserved it. -/
theorem rewrite_truncates_in_place_cex :
    rewrite_in_place [reject_row 1 recJan31] (some 0) [some recJan31] ≠
      [some recJan31] ∧
    rewrite_in_place [reject_row 1 recJan31] (some 0) [some recJan31] = [] ∧
    rewrite_atomic_spec [reject_row 1 recJan31] (some 0) [some recJan31] =
      [some recJan31] := by
  decide

/-- Claim C5, amended: the rewrite truncates the category store in place;
a completed rewrite installs the new rows, but a rewrite failing after `k`
rows leaves exactly those `k` rows — the prior content survives a failure
if and only if it already coincided with the written prefix, unlike the
spec's atomic temp-file-swap semantics, which always preserves it. -/
theorem rewrite_in_place_failure_semantics :
    (∀ (rows : List TrialRec) (prior : List (Option TrialRec)),
        rewrite_in_place rows none prior = rows.map some) ∧
    (∀ (rows : List TrialRec) (k : Nat) (prior : List (Option TrialRec)),
        rewrite_atomic_spec rows (some k) prior = prior) ∧
    (∀ (rows : List TrialRec) (k : Nat) (prior : List (Option TrialRec)),
        rewrite_in_place rows (some k) prior =
            rewrite_atomic_spec rows (some k) prior ↔
          prior = (rows.take k).map some) := by
  refine ⟨fun rows prior => rfl, fun rows k prior => rfl, ?_⟩
  intro rows k prior
  simp only [rewrite_in_place, rewrite_atomic_spec]
  exact eq_comm

/-- The monthly scan succeeds exactly when some parsed line matches the
fingerprint and the current `%Y-%m` month. -/
theorem trial_used_iff (store : List (Option TrialRec)) (ph : String)
    (ym : Int × Int) :
    trial_used_this_month store ph ym = true ↔
      ∃ r : TrialRec, some r ∈ store ∧ r.phone_hash = ph ∧
        r.year_month = ym := by
  simp only [trial_used_this_month, iter_jsonl, List.any_eq_true,
    List.mem_filterMap, id_eq, Bool.and_eq_true, beq_iff_eq]
  constructor
  · rintro ⟨r, ⟨a, ha, rfl⟩, hph, hym⟩
    exact ⟨r, ha, hph, hym⟩
  · rintro ⟨r, hr, hph, hym⟩
    exact ⟨r, ⟨some r, hr, rfl⟩, hph, hym⟩

/-- `iter_jsonl` commutes with mapping a function over the parsed lines. -/
theorem iter_jsonl_map {α β : Type} (g : α → β) (store : List (Option α)) :
    iter_jsonl (store.map (Option.map g)) = (iter_jsonl store).map g := by
  induction store with
  | nil => rfl
  | cons a t ih =>
      cases a with
      | none => simpa [iter_jsonl, List.filterMap_cons] using ih
      | some x => simp [iter_jsonl, List.filterMap_cons] at ih ⊢; exact ih

/-- Claim C1, counterexample: a "kids" trial recorded on 2025-01-31 lies
well inside a rolling 30-day window on 2025-02-01 (one day later), so the
spec's `hasRecentTrial` predicate is true; but the code's check compares
`%Y-%m` strings, the months differ, and the request is not denied — the
flow proceeds to the username prompt. -/
theorem trial_window_is_calendar_month_cex :
    hasRecentTrial_spec [some recJan31] "+97150000000" "kids"
        (minutesOf 2025 2 1 12 0) = true ∧
    minutesOf 2025 2 1 12 0 - recJan31.requested_at < 30 * 1440 ∧
    trial_used_this_month [some recJan31] "+97150000000"
        (yearMonth (minutesOf 2025 2 1 12 0)) = false ∧
    (on_contact_trial [some recJan31] udAwaitKids (fun s => s)
        "+97150000000" (minutesOf 2025 2 1 12 0)).reply =
      some Msg.askTrialUsername := by
  decide

/-- Claim C1, amended: trial eligibility is keyed by the phone fingerprint
alone and by the Dubai calendar month, not by a rolling 30-day window nor
by package: a request at the phone-collection step is denied iff some
trial record carries the same fingerprint and the same `%Y-%m` month as
`now`; and immediately after a trial is appended for a phone, any request
with that phone's fingerprint in the same calendar month is denied. -/
theorem trial_eligibility_calendar_month
    (store : List (Option TrialRec)) (ud : UserTrialData)
    (hash : String → String) (contactPhone : String) (now : Int)
    (hstage : ud.stage = TrialStage.awaitPhone) :
    ((on_contact_trial store ud hash contactPhone now).reply =
        some Msg.trialDenied ↔
      ∃ r : TrialRec, some r ∈ store ∧
        r.phone_hash = hash (normalize_phone contactPhone) ∧
        r.year_month = yearMonth now) ∧
    (∀ (ud2 : UserTrialData) (e164 : String) (chatId userId : Int)
        (tgU : Option String) (txt : String) (now2 : Int),
        ud2.stage = TrialStage.awaitUsername → ud2.phoneE164 = some e164 →
        e164 ≠ "" → yearMonth now2 = yearMonth now →
        trial_used_this_month
          (any_text_trial store ud2 hash chatId userId tgU txt now).store
          (hash e164) (yearMonth now2) = true) := by
  constructor
  · rw [← trial_used_iff store (hash (normalize_phone contactPhone))
      (yearMonth now)]
    simp only [on_contact_trial, hstage, if_true]
    by_cases hused : trial_used_this_month store
        (hash (normalize_phone contactPhone)) (yearMonth now) = true
    · simp [hused]
    · simp [hused]
  · intro ud2 e164 chatId userId tgU txt now2 h1 h2 h3 h4
    simp only [any_text_trial, h1, h2, if_neg h3]
    simp only [trial_used_this_month, save_jsonl, iter_jsonl,
      List.filterMap_append, List.any_append]
    apply Bool.or_eq_true_iff.mpr
    right
    simp [h4]

/-- Witness for the amended C1 theorem: a "kids" trial submitted on
2025-03-10 makes the monthly check true for its fingerprint later the
same month (2025-03-25). -/
theorem trial_eligibility_calendar_month_witness :
    trial_used_this_month
      (any_text_trial [] udSubmitKids (fun s => s) 5 6 none "alicetv"
        (minutesOf 2025 3 10 10 0)).store
      "+97153333333" (yearMonth (minutesOf 2025 3 25 20 0)) = true :=
  (trial_eligibility_calendar_month [] udAwaitKids (fun s => s) "+97150000000"
      (minutesOf 2025 3 10 10 0) rfl).2
    udSubmitKids "+97153333333" 5 6 none "alicetv"
    (minutesOf 2025 3 25 20 0) rfl rfl (by decide) (by decide)

/-- Claim C2, counterexample: the store holds a "kids" trial for a
fingerprint, and the same fingerprint requests a "casual" trial in the
same month — the claim says a different package must not cause a denial,
but the code's check never reads the package and the request is denied. -/
theorem trial_key_ignores_package_cex :
    recJan31.package_code = some "kids" ∧
    udAwaitCasual.pkgCode = some "casual" ∧
    (on_contact_trial [some recJan31] udAwaitCasual (fun s => s)
        "+97150000000" (minutesOf 2025 1 31 18 0)).reply =
      some Msg.trialDenied := by
  decide

/-- Claim C2, amended: the eligibility filter is keyed by the phone
fingerprint alone — repainting every record's package code arbitrarily
does not change the outcome of the monthly check, and any record with a
matching fingerprint in the current Dubai calendar month causes a denial
regardless of the packages involved. -/
theorem trial_eligibility_fingerprint_only
    (store : List (Option TrialRec)) (ph : String) (ym : Int × Int)
    (f : Option String → Option String) :
    (trial_used_this_month
        (store.map (Option.map
          (fun r => { r with package_code := f r.package_code })))
        ph ym = trial_used_this_month store ph ym) ∧
    (∀ (ud : UserTrialData) (hash : String → String)
        (contactPhone : String) (now : Int) (r : TrialRec),
        ud.stage = TrialStage.awaitPhone →
        some r ∈ store →
        r.phone_hash = hash (normalize_phone contactPhone) →
        r.year_month = yearMonth now →
        (on_contact_trial store ud hash contactPhone now).reply =
          some Msg.trialDenied) := by
  constructor
  · simp only [trial_used_this_month, iter_jsonl_map, List.any_map]
    rfl
  · intro ud hash contactPhone now r hstage hmem hph hym
    have hused : trial_used_this_month store
        (hash (normalize_phone contactPhone)) (yearMonth now) = true :=
      (trial_used_iff store _ _).mpr ⟨r, hmem, hph, hym⟩
    simp [on_contact_trial, hstage, hused]

/-- Witness for the amended C2 theorem: a recorded "casual" trial denies a
"kids" request by the same fingerprint later the same month. -/
theorem trial_eligibility_fingerprint_only_witness :
    (on_contact_trial [some recJan20] udAwaitKids (fun s => s)
        "+97152222222" (minutesOf 2025 1 28 11 0)).reply =
      some Msg.trialDenied :=
  (trial_eligibility_fingerprint_only [some recJan20] "+97152222222"
      (yearMonth (minutesOf 2025 1 28 11 0)) id).2
    udAwaitKids (fun s => s) "+97152222222" (minutesOf 2025 1 28 11 0)
    recJan20 rfl (by decide) (by decide) (by decide)

/-- Claim C7, counterexample: the same fingerprint requests a "kids" trial
again nine days after its recorded trial — inside the claimed 30-day
window — but the months differ (2025-01-25 vs 2025-02-03), so the second
request is not denied: no informational denial message is sent and the
trial flow is not reset to idle (it advances to the username step). -/
theorem trial_denial_cross_month_cex :
    minutesOf 2025 2 3 12 0 - recJan25.requested_at < 30 * 1440 ∧
    hasRecentTrial_spec [some recJan25] "+97151111111" "kids"
        (minutesOf 2025 2 3 12 0) = true ∧
    (on_contact_trial [some recJan25] udAwaitKids (fun s => s)
        "+97151111111" (minutesOf 2025 2 3 12 0)).reply ≠
      some Msg.trialDenied ∧
    (on_contact_trial [some recJan25] udAwaitKids (fun s => s)
        "+97151111111" (minutesOf 2025 2 3 12 0)).ud.stage ≠
      TrialStage.idle := by
  decide

/-- Claim C7, amended: a trial request denied by the eligibility check —
i.e. one whose fingerprint already has a trial record in the same Dubai
calendar month (not within a rolling 30-day window) — creates no record:
the store is unchanged, the record count is unchanged, the user receives
the informational denial message, and the chat's trial-flow state is
cleared back to idle with the package selection dropped. -/
theorem trial_denied_no_record_reset
    (store : List (Option TrialRec)) (ud : UserTrialData)
    (hash : String → String) (contactPhone : String) (now : Int)
    (hstage : ud.stage = TrialStage.awaitPhone)
    (hden : trial_used_this_month store (hash (normalize_phone contactPhone))
        (yearMonth now) = true) :
    (on_contact_trial store ud hash contactPhone now).store = store ∧
    (iter_jsonl (on_contact_trial store ud hash contactPhone now).store).length
      = (iter_jsonl store).length ∧
    (on_contact_trial store ud hash contactPhone now).reply =
      some Msg.trialDenied ∧
    (on_contact_trial store ud hash contactPhone now).ud.stage =
      TrialStage.idle ∧
    (on_contact_trial store ud hash contactPhone now).ud.pkgCode = none := by
  simp [on_contact_trial, hstage, hden]

/-- Witness for the amended C7 theorem: the second same-month "kids"
request of the fixture fingerprint is denied with no store change and an
idle reset. -/
theorem trial_denied_no_record_reset_witness :
    (on_contact_trial [some recJan31] udAwaitKids (fun s => s)
        "+97150000000" (minutesOf 2025 1 31 18 0)).store = [some recJan31] ∧
    (on_contact_trial [some recJan31] udAwaitKids (fun s => s)
        "+97150000000" (minutesOf 2025 1 31 18 0)).ud.stage =
      TrialStage.idle := by
  have h := trial_denied_no_record_reset [some recJan31] udAwaitKids
    (fun s => s) "+97150000000" (minutesOf 2025 1 31 18 0) rfl (by decide)
  exact ⟨h.1, h.2.2.2.1⟩

/-- Membership in the parsed rows is membership of the parsed line. -/
theorem mem_iter_jsonl {α : Type} (store : List (Option α)) (a : α) :
    a ∈ iter_jsonl store ↔ some a ∈ store := by
  simp only [iter_jsonl, List.mem_filterMap, id_eq]
  constructor
  · rintro ⟨o, ho, rfl⟩; exact ho
  · intro h; exact ⟨some a, h, rfl⟩

/-- `iter_jsonl` after wrapping every row back into a line is the
identity: a rewrite emits only parseable lines. -/
theorem iter_jsonl_map_some {α : Type} (rows : List α) :
    iter_jsonl (rows.map some) = rows := by
  simp only [iter_jsonl, List.filterMap_map]
  exact List.filterMap_some rows

/-- A malformed line strictly shrinks the parsed row count. -/
theorem length_iter_lt_of_none {α : Type} (store : List (Option α))
    (h : none ∈ store) : (iter_jsonl store).length < store.length := by
  induction store with
  | nil => exact absurd h (List.not_mem_nil none)
  | cons a t ih =>
      cases a with
      | none =>
          have hle := List.length_filterMap_le (id : Option α → Option α) t
          simpa [iter_jsonl, List.filterMap_cons] using
            Nat.lt_succ_of_le hle
      | some x =>
          have ht : none ∈ t := by
            rcases List.mem_cons.mp h with hh | hh
            · exact absurd hh.symm (by simp)
            · exact hh
          simpa [iter_jsonl, List.filterMap_cons] using
            Nat.succ_lt_succ (ih ht)

/-- The `admin_force_reply` search loop keeps the last match; when every
match in the list equals `r` and `r` occurs (or is already the
accumulator), the fold returns `r`. -/
theorem foldl_last_match (tid : Nat) (r : TrialRec) :
    ∀ (l : List TrialRec) (init : Option TrialRec),
      (∀ x ∈ l, x.id = tid → x = r) →
      ((r ∈ l ∧ r.id = tid) ∨ init = some r) →
      l.foldl (fun acc x => if x.id = tid then some x else acc) init =
        some r := by
  intro l
  induction l with
  | nil =>
      intro init hall hcase
      rcases hcase with ⟨hmem, _⟩ | hinit
      · exact absurd hmem (List.not_mem_nil r)
      · simpa using hinit
  | cons y ys ih =>
      intro init hall hcase
      simp only [List.foldl_cons]
      have hall' : ∀ x ∈ ys, x.id = tid → x = r :=
        fun x hx hid => hall x (List.mem_cons_of_mem y hx) hid
      by_cases hy : y.id = tid
      · have hyr : y = r := hall y (List.mem_cons_self y ys) hy
        rw [if_pos hy]
        exact ih (some y) hall' (Or.inr (by rw [hyr]))
      · rw [if_neg hy]
        apply ih init hall'
        rcases hcase with ⟨hmem, hrid⟩ | hinit
        · rcases List.mem_cons.mp hmem with hyr | hmem'
          · exact absurd (by rw [← hyr]; exact hrid) hy
          · exact Or.inl ⟨hmem', hrid⟩
        · exact Or.inr hinit

/-- Claim C6: after the operator's reject of trial id `N`, a scan of the
trial store yields exactly the previously parsed records with every
record of id `N` rewritten to status `"rejected"` and every record of a
different id byte-identical (the full record is unchanged); the operator
path performs exactly this rewrite. -/
theorem trial_reject_frame (store : List (Option TrialRec)) (tid : Nat) :
    iter_jsonl (trial_reject store tid) =
      (iter_jsonl store).map (reject_row tid) ∧
    (∀ r : TrialRec, r.id = tid →
        reject_row tid r = { r with status := "rejected" }) ∧
    (∀ r : TrialRec, r.id ≠ tid → reject_row tid r = r) ∧
    (∀ r : TrialRec, some r ∈ store → r.id = tid →
        some { r with status := "rejected" } ∈ trial_reject store tid) ∧
    (∀ r : TrialRec, some r ∈ store → r.id ≠ tid →
        some r ∈ trial_reject store tid) := by
  have hiter : iter_jsonl (trial_reject store tid) =
      (iter_jsonl store).map (reject_row tid) := by
    simp only [trial_reject, rewrite_in_place]
    exact iter_jsonl_map_some _
  have hpos : ∀ r : TrialRec, r.id = tid →
      reject_row tid r = { r with status := "rejected" } :=
    fun r hr => by simp [reject_row, hr]
  have hneg : ∀ r : TrialRec, r.id ≠ tid → reject_row tid r = r :=
    fun r hr => by simp [reject_row, hr]
  refine ⟨hiter, hpos, hneg, ?_, ?_⟩
  · intro r hmem hid
    have h1 : r ∈ iter_jsonl store := (mem_iter_jsonl store r).mpr hmem
    have h2 : reject_row tid r ∈ iter_jsonl (trial_reject store tid) := by
      rw [hiter]; exact List.mem_map_of_mem _ h1
    rw [hpos r hid] at h2
    exact (mem_iter_jsonl _ _).mp h2
  · intro r hmem hid
    have h1 : r ∈ iter_jsonl store := (mem_iter_jsonl store r).mpr hmem
    have h2 : reject_row tid r ∈ iter_jsonl (trial_reject store tid) := by
      rw [hiter]; exact List.mem_map_of_mem _ h1
    rw [hneg r hid] at h2
    exact (mem_iter_jsonl _ _).mp h2

/-- Witness for the C6 theorem: rejecting id 2 in a two-record store
leaves record 1 untouched and flips record 2. -/
theorem trial_reject_frame_witness :
    reject_row 2 recJan20 = { recJan20 with status := "rejected" } ∧
    reject_row 2 recJan31 = recJan31 ∧
    some { recJan20 with status := "rejected" } ∈
      trial_reject [some recJan31, some recJan20] 2 ∧
    some recJan31 ∈ trial_reject [some recJan31, some recJan20] 2 := by
  have h := trial_reject_frame [some recJan31, some recJan20] 2
  exact ⟨h.2.1 recJan20 (by decide), h.2.2.1 recJan31 (by decide),
    h.2.2.2.1 recJan20 (by simp) (by decide),
    h.2.2.2.2 recJan31 (by simp) (by decide)⟩

/-- With the admin gate passed and a nonzero pending id, the store side of
`admin_force_reply` is always the full grant rewrite, regardless of
whether a matching record was found. -/
theorem admin_force_reply_fst (store : List (Option TrialRec))
    (ud : UserTrialData) (creds : String) (now : Int) (tid : Nat)
    (hud : ud.awaitingCredsFor = some tid) (htid : tid ≠ 0) :
    (admin_force_reply true store ud creds now).1 =
      ((iter_jsonl store).map (grant_row tid now)).map some := by
  simp only [admin_force_reply, hud, if_true, rewrite_in_place]
  rw [if_neg htid]
  rcases hfc : (iter_jsonl store).foldl
      (fun acc r => if r.id = tid then some r else acc)
      (none : Option TrialRec) with _ | r
  · rw [hfc]
  · rw [hfc]
    split <;> first
      | rfl
      | (split <;> rfl)

/-- Claim C8: a user who is not the configured operator cannot change any
state through the operator-only actions — the credential button does not
create a pending-credentials slot, the reject button does not touch the
trial store, and the credentials reply handler returns without rewriting
anything or messaging anyone. -/
theorem non_operator_actions_no_state_change
    (adminChatId : Option Int) (userId : Int)
    (store : List (Option TrialRec)) (ud : UserTrialData)
    (tid : Nat) (creds : String) (now : Int)
    (h : adminChatId ≠ some userId) :
    is_admin adminChatId userId = false ∧
    on_button_trial_send (is_admin adminChatId userId) tid store ud =
      (store, ud, false) ∧
    on_button_trial_reject (is_admin adminChatId userId) tid store =
      (store, false) ∧
    admin_force_reply (is_admin adminChatId userId) store ud creds now =
      (store, ud, none) := by
  have hadm : is_admin adminChatId userId = false := by
    cases adminChatId with
    | none => rfl
    | some a =>
        have hne : a ≠ userId := fun hh => h (by rw [hh])
        simp [is_admin, hne]
  exact ⟨hadm,
    by simp [on_button_trial_send, hadm],
    by simp [on_button_trial_reject, hadm],
    by simp [admin_force_reply, hadm]⟩

/-- Witness for the C8 theorem: user 7 is not the configured operator 42,
and the credentials handler leaves everything untouched. -/
theorem non_operator_actions_no_state_change_witness :
    admin_force_reply (is_admin (some 42) 7) [some recJan31] udAwaitKids
        "creds" 0 = ([some recJan31], udAwaitKids, none) :=
  (non_operator_actions_no_state_change (some 42) 7 [some recJan31]
      udAwaitKids 1 "creds" 0 (by decide)).2.2.2

/-- Claim C9: when the operator supplies credentials for the pending trial
id, the record with that id is rewritten to status `"granted"` (and found
in the rewritten store with only status and grant stamp changed), and the
expiry delivered to the record's chat equals the record's creation time
plus the `TRIAL_HOURS` entry for the record's package code — because the
submit handler stored `expires_at = requested_at + hours` and the grant
handler delivers the stored `expires_at`. -/
theorem grant_sets_status_and_expiry
    (store : List (Option TrialRec)) (ud : UserTrialData) (r : TrialRec)
    (creds : String) (now : Int)
    (hpend : ud.awaitingCredsFor = some r.id)
    (hid0 : r.id ≠ 0)
    (hmem : some r ∈ store)
    (huniq : ∀ x : TrialRec, some x ∈ store → x.id = r.id → x = r)
    (hcreate : r.expires_at =
      r.requested_at + TRIAL_HOURS_get r.package_code * 60)
    (hchat : r.tg_chat_id ≠ 0) :
    some { r with status := "granted", granted_at := some now } ∈
      (admin_force_reply true store ud creds now).1 ∧
    (∀ x : TrialRec,
        x ∈ iter_jsonl (admin_force_reply true store ud creds now).1 →
        x.id = r.id → x.status = "granted") ∧
    (admin_force_reply true store ud creds now).2.2 =
      some { chat := r.tg_chat_id, pkg := r.package_code, creds := creds,
             expiry := r.requested_at +
               TRIAL_HOURS_get r.package_code * 60 } := by
  have hall : ∀ x ∈ iter_jsonl store, x.id = r.id → x = r :=
    fun x hx hid => huniq x ((mem_iter_jsonl store x).mp hx) hid
  have hfound : (iter_jsonl store).foldl
      (fun acc x => if x.id = r.id then some x else acc)
      (none : Option TrialRec) = some r :=
    foldl_last_match r.id r (iter_jsonl store) none hall
      (Or.inl ⟨(mem_iter_jsonl store r).mpr hmem, rfl⟩)
  have hfst := admin_force_reply_fst store ud creds now r.id hpend hid0
  refine ⟨?_, ?_, ?_⟩
  · rw [hfst]
    have h1 : r ∈ iter_jsonl store := (mem_iter_jsonl store r).mpr hmem
    have h2 := List.mem_map_of_mem (grant_row r.id now) h1
    have h3 := List.mem_map_of_mem some h2
    simpa [grant_row] using h3
  · intro x hx hid
    rw [hfst, iter_jsonl_map_some] at hx
    rcases List.mem_map.mp hx with ⟨y, hy, rfl⟩
    by_cases hyid : y.id = r.id
    · simp [grant_row, hyid]
    · exfalso
      simp only [grant_row, if_neg hyid] at hid
      exact hyid hid
  · have hsnd : (admin_force_reply true store ud creds now).2.2 =
        some { chat := r.tg_chat_id, pkg := r.package_code, creds := creds,
               expiry := r.expires_at } := by
      simp only [admin_force_reply, hpend, if_true, rewrite_in_place]
      rw [if_neg hid0, hfound]
      simp [hchat]
    rw [hsnd, hcreate]

/-- Witness for the C9 theorem: granting pending trial id 1 for the
fixture store delivers the creation time plus the "kids" 8-hour entry. -/
theorem grant_sets_status_and_expiry_witness :
    (admin_force_reply true [some recJan31] udCreds1 "user:pass"
        (minutesOf 2025 2 1 9 0)).2.2 =
      some { chat := recJan31.tg_chat_id, pkg := recJan31.package_code,
             creds := "user:pass",
             expiry := recJan31.requested_at +
               TRIAL_HOURS_get recJan31.package_code * 60 } :=
  (grant_sets_status_and_expiry [some recJan31] udCreds1 recJan31
      "user:pass" (minutesOf 2025 2 1 9 0) rfl (by decide) (by simp)
      (fun x hx _ => by simpa using hx) (by decide) (by decide)).2.2

/-- Claim C10: both operator rewrite paths (reject and credential grant)
read the store through the parser that skips unparseable lines and then
overwrite the file with only the parsed rows, so a store containing a
malformed line loses it — and shrinks — on the next reject or grant. -/
theorem rewrite_drops_malformed_lines
    (store : List (Option TrialRec)) (tid : Nat) (now : Int)
    (h : none ∈ store) :
    none ∉ trial_reject store tid ∧
    (∀ (ud : UserTrialData) (creds : String),
        ud.awaitingCredsFor = some tid → tid ≠ 0 →
        none ∉ (admin_force_reply true store ud creds now).1) ∧
    (trial_reject store tid).length < store.length := by
  refine ⟨?_, ?_, ?_⟩
  · simp [trial_reject, rewrite_in_place, List.mem_map]
  · intro ud creds hud htid
    rw [admin_force_reply_fst store ud creds now tid hud htid]
    simp [List.mem_map]
  · have hlen : (trial_reject store tid).length =
        (iter_jsonl store).length := by
      simp [trial_reject, rewrite_in_place]
    rw [hlen]
    exact length_iter_lt_of_none store h

/-- Witness for the C10 theorem: a store with one good and one malformed
line keeps no malformed line after a reject, and shrinks. -/
theorem rewrite_drops_malformed_lines_witness :
    none ∉ trial_reject [some recJan31, none] 1 ∧
    (trial_reject [some recJan31, none] 1).length < 2 := by
  have h := rewrite_drops_malformed_lines [some recJan31, none] 1 0
    (by simp)
  exact ⟨h.1, by simpa using h.2.2⟩
